import Mathlib

/-!
Verification of the book CRUD service (`src/routes.py`, `src/main.py`).

The document store (a MongoDB collection accessed through PyMongo) is
embedded as a `List Book`: list order is the store's natural iteration
order, `insert_one` appends at the end, `find_one` returns the first
matching document, `update_one` applies a `$set` patch to the first
matching document and reports `modified_count` (0 when nothing matched OR
when the matched document was already equal after the patch — PyMongo
semantics), `delete_one` removes the first matching document and reports
`deleted_count`, and `find(limit=100)` returns the first 100 documents.

The entity model (`models.py`) is not part of the given sources, so its
shape is modelled from the specification (§3 DATA MODEL).
-/

set_option autoImplicit false

namespace BookApi

/-- Modelled from the spec: `models.py` is not among the given source
files.  §3: a Book has `id` (opaque string-representable identifier,
generated by the document store on creation), required `title` and
`author`, and optional `synopsis`. -/
structure Book where
  id : String
  title : String
  author : String
  synopsis : Option String
  deriving DecidableEq, Repr

/-- Modelled from the spec: `models.py` is not among the given source
files.  §4.1: the creation payload carries `title`, `author`, optional
`synopsis`; no client-supplied `id` is accepted. -/
structure BookInput where
  title : String
  author : String
  synopsis : Option String
  deriving DecidableEq, Repr

/-- Modelled from the spec: `models.py` is not among the given source
files.  §3: BookUpdate is a partial projection of Book with all fields
optional/nullable. -/
structure BookUpdate where
  title : Option String
  author : Option String
  synopsis : Option String
  deriving DecidableEq, Repr

/-- Number of fields of the reduced patch
`{k: v for k, v in book.dict().items() if v is not None}`
(routes.py line 62): the count of present, non-null fields. -/
def BookUpdate.numPresent (u : BookUpdate) : Nat :=
  (if u.title.isSome then 1 else 0) +
  (if u.author.isSome then 1 else 0) +
  (if u.synopsis.isSome then 1 else 0)

/-- The document built by `insert_one` for a creation payload: the store
assigns identifier `genId` (spec §3: `id` is generated by the document
store on creation). -/
def mkBook (genId : String) (inp : BookInput) : Book :=
  { id := genId, title := inp.title, author := inp.author,
    synopsis := inp.synopsis }

/-- `find_one({"_id": id})`: the first document whose key equals `id`. -/
def findOne : List Book → String → Option Book
  | [], _ => none
  | b :: rest, id => if b.id = id then some b else findOne rest id

/-- `insert_one(book)`: append the new document; the produced
`inserted_id` is the store-assigned identifier `genId`. -/
def insertOne (db : List Book) (genId : String) (inp : BookInput) :
    List Book :=
  db ++ [mkBook genId inp]

/-- `find(limit=100)`: up to 100 documents in natural iteration order
(routes.py line 39). -/
def findLimit (db : List Book) (limit : Nat) : List Book :=
  db.take limit

/-- The effect of `{"$set": book}` for the reduced patch on one document:
each present field is overwritten, absent/null fields are left untouched
(`_id` is not part of the patch, so it is preserved). -/
def applySet (b : Book) (u : BookUpdate) : Book :=
  { id := b.id,
    title := u.title.getD b.title,
    author := u.author.getD b.author,
    synopsis := match u.synopsis with
      | some s => some s
      | none => b.synopsis }

/-- `update_one({"_id": id}, {"$set": patch})`: patch the first matching
document; the second component is `modified_count`, which is 0 when no
document matched or when the matched document was unchanged by the
patch. -/
def updateOne (db : List Book) (id : String) (u : BookUpdate) :
    List Book × Nat :=
  match db with
  | [] => ([], 0)
  | b :: rest =>
    if b.id = id then
      (applySet b u :: rest, if applySet b u = b then 0 else 1)
    else
      let r := updateOne rest id u
      (b :: r.1, r.2)

/-- `delete_one({"_id": id})`: remove the first matching document; the
second component is `deleted_count`. -/
def deleteOne (db : List Book) (id : String) : List Book × Nat :=
  match db with
  | [] => ([], 0)
  | b :: rest =>
    if b.id = id then (rest, 1)
    else
      let r := deleteOne rest id
      (b :: r.1, r.2)

/-- Outcome of a route handler: a body with status 200/201, an
`HTTPException` with status 404 and a detail message, or an empty
204 No Content response. -/
inductive HandlerResult (α : Type) where
  | ok : α → HandlerResult α
  | notFound : String → HandlerResult α
  | noContent : HandlerResult α
  deriving DecidableEq, Repr

/-- The detail string of the 404 raised in routes.py:
`f"Book with ID {id} not found"`. -/
def notFoundMsg (id : String) : String :=
  "Book with ID " ++ id ++ " not found"

/-- `create_book` (routes.py lines 20-28): insert the payload, re-fetch
by the `inserted_id` the insert produced, and return the fetched value
(`return created_book` — an `Option`, with no error branch). The result
pairs the new store state with the handler's return value. -/
def create_book (db : List Book) (genId : String) (inp : BookInput) :
    List Book × Option Book :=
  let db2 := insertOne db genId inp
  let created_book := findOne db2 genId
  (db2, created_book)

/-- `list_books` (routes.py lines 37-40): the first 100 documents. -/
def list_books (db : List Book) : List Book :=
  findLimit db 100

/-- `find_book` (routes.py lines 45-49): the matching document, else a
404 naming the id. -/
def find_book (db : List Book) (id : String) : HandlerResult Book :=
  match findOne db id with
  | some book => .ok book
  | none => .notFound (notFoundMsg id)

/-- `update_book` (routes.py lines 60-76): reduce the patch to its
present non-null fields; if non-empty, issue `update_one` and raise 404
when `modified_count == 0`; then re-fetch by id and return the document,
else 404.  The result pairs the new store state with the handler's
outcome. -/
def update_book (db : List Book) (id : String) (u : BookUpdate) :
    List Book × HandlerResult Book :=
  if 1 ≤ u.numPresent then
    let update_result := updateOne db id u
    if update_result.2 = 0 then
      (update_result.1, .notFound (notFoundMsg id))
    else
      match findOne update_result.1 id with
      | some existing_book => (update_result.1, .ok existing_book)
      | none => (update_result.1, .notFound (notFoundMsg id))
  else
    match findOne db id with
    | some existing_book => (db, .ok existing_book)
    | none => (db, .notFound (notFoundMsg id))

/-- `delete_book` (routes.py lines 80-88): 204 No Content when exactly
one document was deleted, else 404 naming the id. -/
def delete_book (db : List Book) (id : String) :
    List Book × HandlerResult Unit :=
  let delete_result := deleteOne db id
  if delete_result.2 = 1 then (delete_result.1, .noContent)
  else (delete_result.1, .notFound (notFoundMsg id))

/-! ### Lemmas about the store primitives -/

@[simp]
theorem findOne_nil (id : String) : findOne [] id = none := rfl

@[simp]
theorem findOne_cons (b : Book) (rest : List Book) (id : String) :
    findOne (b :: rest) id =
      if b.id = id then some b else findOne rest id := rfl

@[simp]
theorem updateOne_nil (id : String) (u : BookUpdate) :
    updateOne [] id u = ([], 0) := rfl

theorem updateOne_cons (b : Book) (rest : List Book) (id : String)
    (u : BookUpdate) :
    updateOne (b :: rest) id u =
      if b.id = id then
        (applySet b u :: rest, if applySet b u = b then 0 else 1)
      else
        ((b :: (updateOne rest id u).1, (updateOne rest id u).2)) := rfl

@[simp]
theorem deleteOne_nil (id : String) : deleteOne [] id = ([], 0) := rfl

theorem deleteOne_cons (b : Book) (rest : List Book) (id : String) :
    deleteOne (b :: rest) id =
      if b.id = id then (rest, 1)
      else (b :: (deleteOne rest id).1, (deleteOne rest id).2) := rfl

@[simp]
theorem applySet_id (b : Book) (u : BookUpdate) :
    (applySet b u).id = b.id := rfl

/-- If no document has the key, `find_one` misses. -/
theorem findOne_eq_none_of_forall {db : List Book} {id : String}
    (h : ∀ b ∈ db, b.id ≠ id) : findOne db id = none := by
  induction db with
  | nil => rfl
  | cons b rest ih =>
    simp only [findOne_cons]
    rw [if_neg (h b (by simp))]
    exact ih (fun x hx => h x (by simp [hx]))

/-- If `find_one` misses, no document has the key. -/
theorem forall_of_findOne_eq_none {db : List Book} {id : String}
    (h : findOne db id = none) : ∀ b ∈ db, b.id ≠ id := by
  induction db with
  | nil => simp
  | cons b rest ih =>
    simp only [findOne_cons] at h
    by_cases hb : b.id = id
    · simp [hb] at h
    · intro x hx
      rw [if_neg hb] at h
      rcases List.mem_cons.mp hx with rfl | hx
      · exact hb
      · exact ih h x hx

/-- An `update_one` that reports zero modified documents left the store
unchanged. -/
theorem updateOne_fst_of_snd_zero {db : List Book} {id : String}
    {u : BookUpdate} (h : (updateOne db id u).2 = 0) :
    (updateOne db id u).1 = db := by
  induction db with
  | nil => rfl
  | cons b rest ih =>
    rw [updateOne_cons] at h ⊢
    by_cases hb : b.id = id
    · rw [if_pos hb] at h ⊢
      by_cases he : applySet b u = b
      · simp [he]
      · simp [he] at h
    · rw [if_neg hb] at h ⊢
      simp only at h ⊢
      rw [ih h]

/-- When no document matches the id, `update_one` reports zero modified
documents and changes nothing. -/
theorem updateOne_of_findOne_none {db : List Book} {id : String}
    (u : BookUpdate) (h : findOne db id = none) :
    updateOne db id u = (db, 0) := by
  induction db with
  | nil => rfl
  | cons b rest ih =>
    simp only [findOne_cons] at h
    by_cases hb : b.id = id
    · simp [hb] at h
    · rw [if_neg hb] at h
      rw [updateOne_cons, if_neg hb, ih h]

/-- When the first matching document is already equal after the patch,
`update_one` reports zero modified documents. -/
theorem updateOne_snd_zero_of_unchanged {db : List Book} {id : String}
    {u : BookUpdate} {b : Book} (hf : findOne db id = some b)
    (he : applySet b u = b) : (updateOne db id u).2 = 0 := by
  induction db with
  | nil => simp at hf
  | cons c rest ih =>
    simp only [findOne_cons] at hf
    rw [updateOne_cons]
    by_cases hc : c.id = id
    · rw [if_pos hc] at hf
      rw [if_pos hc]
      cases hf
      simp [he]
    · rw [if_neg hc] at hf
      rw [if_neg hc]
      exact ih hf

/-- After `update_one`, the first document with the given key is the
patched form of the first document that had it before. -/
theorem findOne_updateOne_self {db : List Book} {id : String}
    {u : BookUpdate} {b : Book} (hf : findOne db id = some b) :
    findOne (updateOne db id u).1 id = some (applySet b u) := by
  induction db with
  | nil => simp at hf
  | cons c rest ih =>
    simp only [findOne_cons] at hf
    rw [updateOne_cons]
    by_cases hc : c.id = id
    · rw [if_pos hc] at hf
      cases hf
      simp [hc]
    · rw [if_neg hc] at hf
      rw [if_neg hc]
      simp only [findOne_cons, applySet_id]
      rw [if_neg hc]
      exact ih hf

/-- `update_one` on one key does not disturb lookups of any other key. -/
theorem findOne_updateOne_other (db : List Book) (id : String)
    (u : BookUpdate) {j : String} (hj : j ≠ id) :
    findOne (updateOne db id u).1 j = findOne db j := by
  induction db with
  | nil => rfl
  | cons c rest ih =>
    rw [updateOne_cons]
    by_cases hc : c.id = id
    · rw [if_pos hc]
      simp only [findOne_cons, applySet_id]
      rw [if_neg (by rw [hc]; exact fun h => hj h.symm),
          if_neg (by rw [hc]; exact fun h => hj h.symm)]
    · rw [if_neg hc]
      simp only [findOne_cons]
      by_cases hcj : c.id = j
      · rw [if_pos hcj, if_pos hcj]
      · rw [if_neg hcj, if_neg hcj]
        exact ih

/-- When no document matches the id, `delete_one` reports zero deleted
documents and changes nothing. -/
theorem deleteOne_of_findOne_none {db : List Book} {id : String}
    (h : findOne db id = none) : deleteOne db id = (db, 0) := by
  induction db with
  | nil => rfl
  | cons b rest ih =>
    simp only [findOne_cons] at h
    by_cases hb : b.id = id
    · simp [hb] at h
    · rw [if_neg hb] at h
      rw [deleteOne_cons, if_neg hb, ih h]

/-- When some document matches the id, `delete_one` reports exactly one
deleted document. -/
theorem deleteOne_snd_of_findOne_some {db : List Book} {id : String}
    {b : Book} (h : findOne db id = some b) : (deleteOne db id).2 = 1 := by
  induction db with
  | nil => simp at h
  | cons c rest ih =>
    simp only [findOne_cons] at h
    rw [deleteOne_cons]
    by_cases hc : c.id = id
    · rw [if_pos hc]
    · rw [if_neg hc] at h
      rw [if_neg hc]
      exact ih h

/-- With unique ids, after deleting the document with a key the key no
longer resolves. -/
theorem findOne_deleteOne_self {db : List Book} {id : String}
    (hnd : (db.map Book.id).Nodup) :
    findOne (deleteOne db id).1 id = none := by
  induction db with
  | nil => rfl
  | cons b rest ih =>
    simp only [List.map_cons, List.nodup_cons] at hnd
    rw [deleteOne_cons]
    by_cases hb : b.id = id
    · rw [if_pos hb]
      apply findOne_eq_none_of_forall
      intro x hx h
      exact hnd.1 (by rw [hb, ← h]; exact List.mem_map_of_mem Book.id hx)
    · rw [if_neg hb]
      simp only [findOne_cons]
      rw [if_neg hb]
      exact ih hnd.2

/-- A freshly inserted document is found by its store-assigned id when
that id is fresh for the store. -/
theorem findOne_insertOne_fresh {db : List Book} {genId : String}
    (inp : BookInput) (h : ∀ b ∈ db, b.id ≠ genId) :
    findOne (insertOne db genId inp) genId = some (mkBook genId inp) := by
  induction db with
  | nil => simp [insertOne, mkBook]
  | cons b rest ih =>
    simp only [insertOne, List.cons_append, findOne_cons]
    rw [if_neg (h b (by simp))]
    exact ih (fun x hx => h x (by simp [hx]))

/-- The patch of a reduced-empty BookUpdate changes nothing. -/
theorem applySet_of_numPresent_zero (b : Book) {u : BookUpdate}
    (h : u.numPresent = 0) : applySet b u = b := by
  unfold BookUpdate.numPresent at h
  cases ht : u.title <;> cases ha : u.author <;> cases hs : u.synopsis <;>
    simp [ht, ha, hs] at h ⊢ <;>
    simp [applySet, ht, ha, hs]

/-- The store state after `update_book`: the `update_one` result when a
non-empty patch was issued, the unchanged store otherwise. -/
theorem update_book_fst (db : List Book) (id : String) (u : BookUpdate) :
    (update_book db id u).1 =
      if 1 ≤ u.numPresent then (updateOne db id u).1 else db := by
  unfold update_book
  by_cases hu : 1 ≤ u.numPresent
  · rw [if_pos hu, if_pos hu]
    by_cases h0 : (updateOne db id u).2 = 0
    · simp [h0]
    · simp only [h0, if_false]
      cases findOne (updateOne db id u).1 id <;> simp
  · rw [if_neg hu, if_neg hu]
    cases findOne db id <;> simp

/-- A `delete_one` that reports zero deleted documents left the store
unchanged. -/
theorem deleteOne_fst_of_snd_zero {db : List Book} {id : String}
    (h : (deleteOne db id).2 = 0) : (deleteOne db id).1 = db := by
  induction db with
  | nil => rfl
  | cons b rest ih =>
    rw [deleteOne_cons] at h ⊢
    by_cases hb : b.id = id
    · rw [if_pos hb] at h
      simp at h
    · rw [if_neg hb] at h ⊢
      simp only at h ⊢
      rw [ih h]

/-- The store state after `delete_book` is always the `delete_one`
result. -/
theorem delete_book_fst (db : List Book) (id : String) :
    (delete_book db id).1 = (deleteOne db id).1 := by
  unfold delete_book
  by_cases h : (deleteOne db id).2 = 1 <;> simp [h]

/-! ### Claim theorems -/

/-- C1: for every Update call whose BookUpdate body reduces to a
non-empty set of present, non-null fields, if `update_one` reports zero
documents modified the handler fails with Not-Found naming the id; zero
modified arises both when no document with that id exists and when the
document exists but every patched field already equals the requested
value, and the two cases produce the same response. -/
theorem update_book_zero_modified_not_found (db : List Book) (id : String)
    (u : BookUpdate) (hu : 1 ≤ u.numPresent) :
    ((updateOne db id u).2 = 0 →
      update_book db id u = (db, .notFound (notFoundMsg id)))
    ∧ (findOne db id = none → (updateOne db id u).2 = 0)
    ∧ (∀ b, findOne db id = some b → applySet b u = b →
        (updateOne db id u).2 = 0)
    ∧ (∃ s t, notFoundMsg id = s ++ id ++ t) := by
  refine ⟨?_, ?_, ?_, "Book with ID ", " not found", rfl⟩
  · intro h
    simp [update_book, hu, h, updateOne_fst_of_snd_zero h]
  · intro h
    rw [updateOne_of_findOne_none u h]
  · intro b hf he
    exact updateOne_snd_zero_of_unchanged hf he

/-- C1 witness: a non-empty patch against an empty store reports zero
modified and yields Not-Found. -/
theorem update_book_zero_modified_not_found_witness :
    update_book [] "x" ⟨some "t", none, none⟩ =
      ([], .notFound (notFoundMsg "x")) :=
  (update_book_zero_modified_not_found [] "x" ⟨some "t", none, none⟩
    (by decide)).1 rfl

/-- C2: an Update whose BookUpdate reduces to the empty patch issues no
update to the store (the store is unchanged) and returns the current
document for the id when one exists, else Not-Found. -/
theorem update_book_empty_patch (db : List Book) (id : String)
    (u : BookUpdate) (hu : u.numPresent = 0) :
    (update_book db id u).1 = db
    ∧ (∀ b, findOne db id = some b → (update_book db id u).2 = .ok b)
    ∧ (findOne db id = none →
        (update_book db id u).2 = .notFound (notFoundMsg id)) := by
  have h1 : ¬ 1 ≤ u.numPresent := by omega
  unfold update_book
  rw [if_neg h1]
  refine ⟨?_, ?_, ?_⟩ <;> cases hf : findOne db id <;> simp [hf]

/-- C2 witness: an all-null patch against a stored book returns the
unchanged document. -/
theorem update_book_empty_patch_witness :
    (update_book [⟨"a", "T", "A", none⟩] "a" ⟨none, none, none⟩).2 =
      .ok ⟨"a", "T", "A", none⟩ :=
  (update_book_empty_patch [⟨"a", "T", "A", none⟩] "a" ⟨none, none, none⟩
    (by decide)).2.1 ⟨"a", "T", "A", none⟩ (by decide)

/-- C3: updating an existing document changes exactly the present,
non-null fields: afterwards the document under the id is the patched
form, whose id equals the old id and whose absent/null fields keep their
prior values (a null never clears a value), and every other id resolves
exactly as before. -/
theorem update_book_frame (db : List Book) (id : String) (u : BookUpdate)
    (b : Book) (hf : findOne db id = some b) :
    findOne (update_book db id u).1 id = some (applySet b u)
    ∧ (applySet b u).id = b.id
    ∧ (u.title = none → (applySet b u).title = b.title)
    ∧ (u.author = none → (applySet b u).author = b.author)
    ∧ (u.synopsis = none → (applySet b u).synopsis = b.synopsis)
    ∧ (∀ j, j ≠ id → findOne (update_book db id u).1 j = findOne db j) := by
  refine ⟨?_, rfl, ?_, ?_, ?_, ?_⟩
  · rw [update_book_fst]
    by_cases hu : 1 ≤ u.numPresent
    · rw [if_pos hu]
      exact findOne_updateOne_self hf
    · rw [if_neg hu, hf,
        applySet_of_numPresent_zero b (by omega)]
  · intro h
    simp [applySet, h]
  · intro h
    simp [applySet, h]
  · intro h
    simp [applySet, h]
  · intro j hj
    rw [update_book_fst]
    by_cases hu : 1 ≤ u.numPresent
    · rw [if_pos hu]
      exact findOne_updateOne_other db id u hj
    · rw [if_neg hu]

/-- C3 witness: patching only `synopsis` leaves the stored document's
other fields intact and is visible through a subsequent lookup. -/
theorem update_book_frame_witness :
    findOne
        (update_book [⟨"a", "T", "A", none⟩] "a"
          ⟨none, none, some "s"⟩).1 "a" =
      some (applySet ⟨"a", "T", "A", none⟩ ⟨none, none, some "s"⟩) :=
  (update_book_frame [⟨"a", "T", "A", none⟩] "a" ⟨none, none, some "s"⟩
    ⟨"a", "T", "A", none⟩ (by decide)).1

/-- C4: listing returns at most 100 documents, and exactly 100 when more
than 100 exist. -/
theorem list_books_cap (db : List Book) :
    (list_books db).length ≤ 100
    ∧ (100 < db.length → (list_books db).length = 100) := by
  constructor
  · simp [list_books, findLimit, List.length_take]
  · intro h
    simp only [list_books, findLimit, List.length_take]
    omega

/-- C4 witness: with 101 stored documents, listing returns exactly
100. -/
theorem list_books_cap_witness :
    (list_books (List.replicate 101 ⟨"a", "T", "A", none⟩)).length = 100 :=
  (list_books_cap (List.replicate 101 ⟨"a", "T", "A", none⟩)).2
    (by simp)

/-- C5: Delete responds 204 No Content exactly when one document was
deleted, Not-Found naming the id when zero were deleted, and (with
unique ids) deleting the same id twice yields Not-Found the second
time. -/
theorem delete_book_contract (db : List Book) (id : String) :
    ((deleteOne db id).2 = 1 →
      delete_book db id = ((deleteOne db id).1, .noContent))
    ∧ ((deleteOne db id).2 = 0 →
      delete_book db id = (db, .notFound (notFoundMsg id)))
    ∧ ((db.map Book.id).Nodup → (deleteOne db id).2 = 1 →
      (delete_book (delete_book db id).1 id).2 =
        .notFound (notFoundMsg id)) := by
  refine ⟨?_, ?_, ?_⟩
  · intro h
    unfold delete_book
    rw [if_pos h]
  · intro h
    unfold delete_book
    rw [if_neg (by omega), deleteOne_fst_of_snd_zero h]
  · intro hnd _
    rw [delete_book_fst]
    have hnone : findOne (deleteOne db id).1 id = none :=
      findOne_deleteOne_self hnd
    unfold delete_book
    rw [deleteOne_of_findOne_none hnone]
    simp

/-- C5 witness: deleting the sole stored book succeeds with No
Content. -/
theorem delete_book_contract_witness :
    delete_book [⟨"a", "T", "A", none⟩] "a" = ([], .noContent) :=
  (delete_book_contract [⟨"a", "T", "A", none⟩] "a").1 (by decide)

/-- C6: Find returns the matching document when one exists; otherwise it
fails with a Not-Found whose message contains the id; no outcome other
than these two is possible. -/
theorem find_book_contract (db : List Book) (id : String) :
    (∀ b, findOne db id = some b → find_book db id = .ok b)
    ∧ (findOne db id = none →
        find_book db id = .notFound (notFoundMsg id)
        ∧ ∃ s t, notFoundMsg id = s ++ id ++ t)
    ∧ (∀ r, find_book db id = r →
        (∃ b, findOne db id = some b ∧ r = .ok b) ∨
          r = .notFound (notFoundMsg id)) := by
  refine ⟨?_, ?_, ?_⟩
  · intro b hb
    unfold find_book
    rw [hb]
  · intro h
    refine ⟨?_, "Book with ID ", " not found", rfl⟩
    unfold find_book
    rw [h]
  · intro r hr
    unfold find_book at hr
    cases hf : findOne db id with
    | some b =>
      rw [hf] at hr
      exact Or.inl ⟨b, rfl, hr.symm⟩
    | none =>
      rw [hf] at hr
      exact Or.inr hr.symm

/-- C6 witness: looking up an absent id yields the Not-Found naming that
id. -/
theorem find_book_contract_witness :
    find_book [] "x" = .notFound (notFoundMsg "x")
    ∧ ∃ s t, notFoundMsg "x" = s ++ "x" ++ t :=
  (find_book_contract [] "x").2.1 rfl

/-- C7: Create inserts exactly one new document (the encoded payload
under the store-assigned id), re-fetches it by the identifier the insert
produced, and returns that stored document, generated id included. -/
theorem create_book_contract (db : List Book) (genId : String)
    (inp : BookInput) (hfresh : ∀ b ∈ db, b.id ≠ genId) :
    (create_book db genId inp).1 = db ++ [mkBook genId inp]
    ∧ (create_book db genId inp).1.length = db.length + 1
    ∧ (create_book db genId inp).2 =
        findOne (create_book db genId inp).1 genId
    ∧ (create_book db genId inp).2 = some (mkBook genId inp)
    ∧ (mkBook genId inp).id = genId := by
  refine ⟨rfl, ?_, rfl, ?_, rfl⟩
  · simp [create_book, insertOne]
  · exact findOne_insertOne_fresh inp hfresh

/-- C7 witness: creating a book in an empty store returns the stored
document with the store-assigned id. -/
theorem create_book_contract_witness :
    (create_book [] "g1" ⟨"T", "A", none⟩).2 =
      some (mkBook "g1" ⟨"T", "A", none⟩) :=
  (create_book_contract [] "g1" ⟨"T", "A", none⟩ (by simp)).2.2.2.1

/-- C8: the stored id is exactly the store-generated identifier and does
not depend on anything in the client payload, and creation with a fresh
generated id preserves uniqueness of the stored ids. -/
theorem create_book_unique_ids (db : List Book) (genId : String)
    (inp : BookInput) (hfresh : ∀ b ∈ db, b.id ≠ genId)
    (hnd : (db.map Book.id).Nodup) :
    ((create_book db genId inp).1.map Book.id).Nodup
    ∧ (∀ inp2 : BookInput, (mkBook genId inp).id = (mkBook genId inp2).id)
    ∧ (mkBook genId inp).id = genId := by
  refine ⟨?_, fun _ => rfl, rfl⟩
  have : (create_book db genId inp).1.map Book.id =
      db.map Book.id ++ [genId] := by
    simp [create_book, insertOne, mkBook]
  rw [this, List.nodup_append]
  refine ⟨hnd, List.nodup_singleton genId, ?_⟩
  intro a ha hb
  rcases List.mem_map.mp ha with ⟨b, hbmem, rfl⟩
  rw [List.mem_singleton] at hb
  exact hfresh b hbmem hb

/-- C8 witness: creating with a fresh store id on a one-document store
keeps the ids unique. -/
theorem create_book_unique_ids_witness :
    (((create_book [⟨"a", "T", "A", none⟩] "g1" ⟨"U", "B", none⟩).1.map
      Book.id)).Nodup :=
  (create_book_unique_ids [⟨"a", "T", "A", none⟩] "g1" ⟨"U", "B", none⟩
    (by decide) (by decide)).1

/-- C9: the document a successful Create returns is found unchanged by a
subsequent Find on its id. -/
theorem create_then_find (db : List Book) (genId : String)
    (inp : BookInput) (hfresh : ∀ b ∈ db, b.id ≠ genId) :
    ∀ b, (create_book db genId inp).2 = some b →
      find_book (create_book db genId inp).1 b.id = .ok b := by
  intro b hb
  have hfind : findOne (insertOne db genId inp) genId =
      some (mkBook genId inp) := findOne_insertOne_fresh inp hfresh
  have hb2 : findOne (insertOne db genId inp) genId = some b := hb
  rw [hfind] at hb2
  cases hb2
  unfold find_book
  have h1 : (create_book db genId inp).1 = insertOne db genId inp := rfl
  rw [show (mkBook genId inp).id = genId from rfl, h1, hfind]

/-- C9 witness: a created book is found by its id right after
creation. -/
theorem create_then_find_witness :
    find_book (create_book [] "g1" ⟨"T", "A", none⟩).1
        (mkBook "g1" ⟨"T", "A", none⟩).id =
      .ok (mkBook "g1" ⟨"T", "A", none⟩) :=
  create_then_find [] "g1" ⟨"T", "A", none⟩ (by simp)
    (mkBook "g1" ⟨"T", "A", none⟩) (by decide)

/-- C10: Create has no Not-Found branch — its returned body is exactly
the post-insert re-fetch result, an optional value passed through
unchanged (so an absent fetch would be returned as the absent value, not
raised) — whereas Find, Update (for every patch), and Delete all produce
Not-Found when no document carries the id. -/
theorem create_book_no_error_branch (db : List Book) (genId : String)
    (inp : BookInput) (id : String) (u : BookUpdate)
    (h : findOne db id = none) :
    (create_book db genId inp).2 =
      findOne (create_book db genId inp).1 genId
    ∧ find_book db id = .notFound (notFoundMsg id)
    ∧ (delete_book db id).2 = .notFound (notFoundMsg id)
    ∧ (update_book db id u).2 = .notFound (notFoundMsg id) := by
  refine ⟨rfl, ?_, ?_, ?_⟩
  · unfold find_book
    rw [h]
  · unfold delete_book
    rw [deleteOne_of_findOne_none h]
    simp
  · by_cases hu : 1 ≤ u.numPresent
    · have h0 : (updateOne db id u).2 = 0 := by
        rw [updateOne_of_findOne_none u h]
      simp [update_book, hu, h0]
    · unfold update_book
      rw [if_neg hu, h]

/-- C10 witness: against an empty store, Find, Update, and Delete all
report Not-Found while Create returns its re-fetch result. -/
theorem create_book_no_error_branch_witness :
    (update_book [] "x" ⟨some "t", none, none⟩).2 =
      .notFound (notFoundMsg "x") :=
  (create_book_no_error_branch [] "g1" ⟨"T", "A", none⟩ "x"
    ⟨some "t", none, none⟩ rfl).2.2.2

end BookApi
